import Mathlib

/-!
Shallow embedding of the sunbeam-microcluster control-plane store:
the generic config key/value table, the Terraform state/lock service built on
top of it (`sunbeam/terraform.go`), the manifest log (`database/manifest.go`,
`sunbeam/manifest.go`) and the node registry (`database/node.go`,
`sunbeam/config.go`).

Modelling conventions:
* Machine integers are `Nat`/`Int`; timestamps are `Nat`.
* The lxd-generate mapper code (GetConfigItem, GetNode, ...) is generated at
  build time and absent from the tree; it is modelled from the spec (§4.1):
  a `get` by primary key returns the row or an HTTP-404 `StatusError`,
  deletion of an absent key is a no-op at the store layer.
* JSON (de)serialization of `types.Lock` is modelled by a constructor tag on
  the stored value: `json.Marshal l` is `ConfigValue.lockJSON l`, and
  `json.Unmarshal` succeeds exactly on such values (Go's round trip).
* Each Go `s.Database.Transaction` closure is one atomic step; functions are
  explicit state passing over the table contents.
-/

/-- Go struct `types.Lock`: Terraform's lock metadata (`Created` is a `time.Time`,
modelled as a `Nat` timestamp). -/
structure Lock where
  ID : String
  Operation : String
  Info : String
  Who : String
  Version : String
  Created : Nat
  Path : String
  deriving DecidableEq, Repr

/-- The Go zero value of `types.Lock` (`var dbLock types.Lock`). -/
def emptyLock : Lock :=
  { ID := "", Operation := "", Info := "", Who := "", Version := "", Created := 0, Path := "" }

/-- Errors crossing the component boundary: `api.StatusError` (HTTP status plus
message) or a `json.Unmarshal` failure. -/
inductive SbError where
  | statusError (status : Nat) (msg : String)
  | jsonError
  deriving DecidableEq, Repr

/-- Go's `err.(api.StatusError)` type assertion followed by
`err.Status() == http.StatusNotFound`. -/
def SbError.isNotFound : SbError → Bool
  | SbError.statusError s _ => s == 404
  | _ => false

/-- A value stored in the `config` table. The table stores strings; a Lock is
stored as its JSON encoding, which we keep abstract as the tag `lockJSON`
(injective, decodable exactly when the stored bytes came from `json.Marshal`
of a `types.Lock`). -/
inductive ConfigValue where
  | rawString (s : String)
  | lockJSON (l : Lock)
  deriving DecidableEq, Repr

/-- Decoding (`json.Unmarshal`) of a stored value into `types.Lock`. -/
def unmarshalLock : ConfigValue → Except SbError Lock
  | ConfigValue.lockJSON l => Except.ok l
  | ConfigValue.rawString _ => Except.error SbError.jsonError

/-- The `config` table: rows `(key, value)`, keys unique (primary key). -/
abbrev ConfigStore := List (String × ConfigValue)

/-- Modelled from the spec: `database.GetConfigItem` (lxd-generate mapper, not
in the tree) per §4.1 `get(key) -> value | NotFound`; the 404 message is the
one `sunbeam.UpdateConfig` string-matches on. Runs in one transaction
(`sunbeam.GetConfig`). -/
def getConfigItem (db : ConfigStore) (key : String) : Except SbError ConfigValue :=
  match db.find? (fun kv => kv.1 == key) with
  | some kv => Except.ok kv.2
  | none => Except.error (SbError.statusError 404 "ConfigItem not found")

/-- Function `sunbeam.UpdateConfig`: update the row if the key exists, otherwise create
it (§4.1 upsert). Runs in one transaction. Keys are unique, so updating
replaces the first (only) matching row. -/
def updateConfig : ConfigStore → String → ConfigValue → ConfigStore
  | [], key, v => [(key, v)]
  | kv :: rest, key, v =>
    if kv.1 == key then (key, v) :: rest else kv :: updateConfig rest key v

/-- Function `sunbeam.DeleteConfig` per §4.1: removes the key; deleting an absent key is
a no-op at this layer. Runs in one transaction. -/
def deleteConfig (db : ConfigStore) (key : String) : ConfigStore :=
  db.filter (fun kv => kv.1 != key)

/-- Reserved `tfstate-` key namespace (source constant name ends differently
only because of lexical restrictions here). -/
def tfstatePfx : String := "tfstate-"

/-- Reserved `tflock-` key namespace. -/
def tflockPfx : String := "tflock-"

/-- The state key for a plan name (`tfstateKey := tfstatePrefix + name`). -/
def tfstateKey (name : String) : String := tfstatePfx ++ name

/-- The lock key for a plan name (`tflockKey := tflockPrefix + name`). -/
def tflockKey (name : String) : String := tflockPfx ++ name

/-- The result of one Terraform state/lock operation: the `types.Lock` the Go
function returns, the returned error (`none` = success), and the config table
after the call. -/
structure TFResult where
  dbLock : Lock
  err : Option SbError
  store : ConfigStore
  deriving DecidableEq, Repr

/-- Function `sunbeam.UpdateTerraformState` (PutState): read the lock for `name`; on a
read error return it as-is; otherwise compare the caller's `lockID` with the
stored lock's `ID` and either return HTTP-409 Conflict or upsert the state
blob under `tfstate-name`. -/
def UpdateTerraformState (db : ConfigStore) (name lockID state : String) : TFResult :=
  match getConfigItem db (tflockKey name) with
  | Except.error e => { dbLock := emptyLock, err := some e, store := db }
  | Except.ok lockInDb =>
    match unmarshalLock lockInDb with
    | Except.error e => { dbLock := emptyLock, err := some e, store := db }
    | Except.ok dbLock =>
      if lockID != dbLock.ID then
        { dbLock := dbLock, err := some (SbError.statusError 409 "Conflict in Lock ID"), store := db }
      else
        { dbLock := dbLock, err := none,
          store := updateConfig db (tfstateKey name) (ConfigValue.rawString state) }

/-- The first transaction performed by `sunbeam.UpdateTerraformLock`: the
`GetConfig` of the lock key. (In the Go code this is its own
`s.Database.Transaction`, separate from the later write.) -/
def lockReadTx (db : ConfigStore) (name : String) : Except SbError ConfigValue :=
  getConfigItem db (tflockKey name)

/-- The remainder of `sunbeam.UpdateTerraformLock` after the read transaction:
on a 404 from the read, marshal the request lock and `UpdateConfig` it (a
second, separate transaction, performed against whatever store `st` holds at
that moment); on any other read error return it; otherwise unmarshal the
stored lock and compare the `(ID, Operation, Who)` triple, returning HTTP-423
when equal and HTTP-409 otherwise, never writing. -/
def lockAfterRead (readRes : Except SbError ConfigValue) (st : ConfigStore) (name : String)
    (reqLock : Lock) : TFResult :=
  match readRes with
  | Except.error e =>
    if e.isNotFound then
      { dbLock := emptyLock, err := none,
        store := updateConfig st (tflockKey name) (ConfigValue.lockJSON reqLock) }
    else
      { dbLock := emptyLock, err := some e, store := st }
  | Except.ok lockInDb =>
    match unmarshalLock lockInDb with
    | Except.error e => { dbLock := emptyLock, err := some e, store := st }
    | Except.ok dbLock =>
      if dbLock.ID == reqLock.ID && dbLock.Operation == reqLock.Operation
          && dbLock.Who == reqLock.Who then
        { dbLock := dbLock, err := some (SbError.statusError 423 "Already locked with same ID"),
          store := st }
      else
        { dbLock := dbLock, err := some (SbError.statusError 409 "Conflict in Lock ID"),
          store := st }

/-- Function `sunbeam.UpdateTerraformLock` (Lock) run with no interference: unmarshal
the request body, then the read transaction followed by the continuation,
both against the same store. -/
def UpdateTerraformLock (db : ConfigStore) (name : String) (lock : ConfigValue) : TFResult :=
  match unmarshalLock lock with
  | Except.error e => { dbLock := emptyLock, err := some e, store := db }
  | Except.ok reqLock => lockAfterRead (lockReadTx db name) db name reqLock

/-- Two concurrent `UpdateTerraformLock` calls on the same plan, interleaved
so that both read transactions run before either write transaction. Because
the Go code runs `GetConfig` and `UpdateConfig` as separate transactions,
this interleaving is possible; call 2's write is applied to the store left by
call 1's write. -/
def interleavedDoubleLock (db : ConfigStore) (name : String) (l1 l2 : Lock) :
    TFResult × TFResult :=
  let r1 := lockReadTx db name
  let r2 := lockReadTx db name
  let o1 := lockAfterRead r1 db name l1
  let o2 := lockAfterRead r2 o1.store name l2
  (o1, o2)

/-- Function `sunbeam.DeleteTerraformLock` (Unlock): unmarshal the request body; a 404
on the lock read is success (already unlocked); a stored lock equal on
`(ID, Operation, Who)` is deleted; otherwise HTTP-409 Conflict carrying the
stored lock, with no write. -/
def DeleteTerraformLock (db : ConfigStore) (name : String) (lock : ConfigValue) : TFResult :=
  match unmarshalLock lock with
  | Except.error e => { dbLock := emptyLock, err := some e, store := db }
  | Except.ok reqLock =>
    match getConfigItem db (tflockKey name) with
    | Except.error e =>
      if e.isNotFound then
        { dbLock := emptyLock, err := none, store := db }
      else
        { dbLock := emptyLock, err := some e, store := db }
    | Except.ok lockInDb =>
      match unmarshalLock lockInDb with
      | Except.error e => { dbLock := emptyLock, err := some e, store := db }
      | Except.ok dbLock =>
        if dbLock.ID == reqLock.ID && dbLock.Operation == reqLock.Operation
            && dbLock.Who == reqLock.Who then
          { dbLock := dbLock, err := none, store := deleteConfig db (tflockKey name) }
        else
          { dbLock := dbLock, err := some (SbError.statusError 409 "Conflict in Lock ID"),
            store := db }

/-- Go struct `database.ManifestItem`: `ID` is the internal row id (rowid), assigned in
increasing insertion order by SQLite; `AppliedDate` is the timestamp the
schema default stamps at insert time (spec §4.3: "server sets appliedDate to
current time"), modelled as `Nat`. -/
structure ManifestItem where
  ID : Nat
  ManifestID : String
  AppliedDate : Nat
  Data : String
  deriving DecidableEq, Repr

/-- The `manifest` table, rows listed in rowid order (the order a full scan
with no ORDER BY returns them, and the order `getManifestItems` yields). -/
abbrev ManifestTable := List ManifestItem

/-- Generated `database.ManifestItemExists` (lxd-generate `Exists` by primary key). -/
def ManifestItemExists (tbl : ManifestTable) (manifestID : String) : Bool :=
  tbl.any (fun r => r.ManifestID == manifestID)

/-- The rowid SQLite assigns to a fresh insert: larger than every existing
rowid. -/
def nextRowID (tbl : ManifestTable) : Nat :=
  (tbl.map ManifestItem.ID).foldr max 0 + 1

/-- Function `database.CreateManifestItem`: check `ManifestItemExists`; on a duplicate
return HTTP-409 without touching the table, otherwise run the INSERT (the
schema default fills `applied_date` with the current time `now`). -/
def CreateManifestItem (tbl : ManifestTable) (manifestID data : String) (now : Nat) :
    Option SbError × ManifestTable :=
  if ManifestItemExists tbl manifestID then
    (some (SbError.statusError 409 "This \"manifest\" entry already exists"), tbl)
  else
    (none, tbl ++ [{ ID := nextRowID tbl, ManifestID := manifestID, AppliedDate := now,
                     Data := data }])

/-- SQL `MAX(applied_date)` over the `manifest` table. -/
def maxAppliedDate (tbl : ManifestTable) : Nat :=
  (tbl.map ManifestItem.AppliedDate).foldr max 0

/-- The rows returned by the `latestManifestItemObject` statement:
`SELECT ... FROM manifest WHERE manifest.applied_date = (SELECT MAX(applied_date) FROM manifest)`,
scanned in rowid order. -/
def latestQueryRows (tbl : ManifestTable) : ManifestTable :=
  tbl.filter (fun r => r.AppliedDate == maxAppliedDate tbl)

/-- Function `database.GetLatestManifestItem`: run the query above; an empty result is
HTTP-404, otherwise return `objects[len-1]`, the last row. -/
def GetLatestManifestItem (tbl : ManifestTable) : Except SbError ManifestItem :=
  match (latestQueryRows tbl).getLast? with
  | none => Except.error (SbError.statusError 404 "ManifestItem not found")
  | some r => Except.ok r

/-- Go struct `database.Node`: `Role` is the sorted JSON-encoded role list as a raw
string, `Member` the owning cluster member, `ID` the rowid. -/
structure Node where
  ID : Nat
  Member : String
  Name : String
  Role : String
  MachineID : Int
  SystemID : String
  deriving DecidableEq, Repr

/-- The `nodes` table in rowid order. -/
abbrev NodeTable := List Node

/-- SQLite `instr(s, sub) > 0`: `sub` occurs in `s` as a substring. -/
def instrGtZero (s sub : String) : Bool :=
  decide (sub.toList <:+: s.toList)

/-- Function `database.GetNodesFromRoles`: the generated `nodeObjects` statement (which
ends in `ORDER BY nodes.name`) with one `instr(nodes.role, ?) > 0` conjunct
injected per requested role when `len(roles) > 0`. -/
def GetNodesFromRoles (tbl : NodeTable) (roles : List String) : NodeTable :=
  let rows :=
    if roles.length > 0 then
      tbl.filter (fun n => roles.all (fun r => instrGtZero n.Role r))
    else tbl
  List.insertionSort (fun a b => a.Name ≤ b.Name) rows

/-- Modelled from the spec: `database.GetNode` (lxd-generate `GetOne` by
primary key, not in the tree) per §4.2 `get(name) -> node | NotFound`. -/
def getNodeRow (tbl : NodeTable) (name : String) : Except SbError Node :=
  match tbl.find? (fun n => n.Name == name) with
  | some n => Except.ok n
  | none => Except.error (SbError.statusError 404 "Node not found")

/-- Modelled from the spec: `database.UpdateNode` (lxd-generate `Update` by
primary key): rewrite every column of the row named `name` from `new`; the
rowid is not a column and is preserved. -/
def updateNodeRow (tbl : NodeTable) (name : String) (new : Node) : NodeTable :=
  tbl.map (fun n => if n.Name == name then { new with ID := n.ID } else n)

/-- JSON encoding of a list of strings, `["a","b"]`. -/
def jsonStrList (l : List String) : String :=
  "[" ++ String.intercalate "," (l.map (fun s => "\"" ++ s ++ "\"")) ++ "]"

/-- Function `sunbeam.roleToStr`: `sort.Strings(role)` then `json.Marshal(role)`. A Go
nil slice (modelled as `none`) marshals to `"null"`; a present slice (even an
empty one) marshals to a JSON array. -/
def roleToStr : Option (List String) → String
  | none => "null"
  | some l => jsonStrList (List.insertionSort (fun a b : String => a ≤ b) l)

/-- Function `sunbeam.UpdateNode` (the systemID-aware variant of `config.go`):
`roleToStr` first, then in one transaction `GetNode` (its error, wrapped with
`%w`, still unwraps to the 404), the three sentinel checks — note Go tests
`role == nil`, which is false for a present-but-empty slice — and the write,
which stamps `Member` with `s.Name()`, the member executing the call. -/
def UpdateNode (tbl : NodeTable) (member name : String) (role : Option (List String))
    (machineid : Int) (systemid : String) : Option SbError × NodeTable :=
  let nodeRole := roleToStr role
  match getNodeRow tbl name with
  | Except.error e => (some e, tbl)
  | Except.ok node =>
    let nodeRole := if role.isNone then node.Role else nodeRole
    let machineid := if machineid == -1 then node.MachineID else machineid
    let systemid := if systemid == "" then node.SystemID else systemid
    (none, updateNodeRow tbl name
      { ID := 0, Member := member, Name := name, Role := nodeRole,
        MachineID := machineid, SystemID := systemid })

/-- Concrete lock held by the first locker in the examples. -/
def demoLock1 : Lock :=
  { emptyLock with ID := "lock-1", Operation := "apply", Who := "alice" }

/-- Concrete lock requested by the second, conflicting locker. -/
def demoLock2 : Lock :=
  { emptyLock with ID := "lock-2", Operation := "plan", Who := "bob" }

/-- A config table where plan `p` is locked by `demoLock1` and has a state
blob. -/
def demoDB : ConfigStore :=
  [(tflockKey "p", ConfigValue.lockJSON demoLock1),
   (tfstateKey "p", ConfigValue.rawString "blob-0")]

/-- Manifest table after inserting `a` at time 5 then `b` at time 9. -/
def demoManifests : ManifestTable :=
  [{ ID := 1, ManifestID := "a", AppliedDate := 5, Data := "da" },
   { ID := 2, ManifestID := "b", AppliedDate := 9, Data := "db" }]

/-- A registered node with one role. -/
def demoNode : Node :=
  { ID := 7, Member := "m0", Name := "n0", Role := "[\"x\"]", MachineID := 3, SystemID := "sys" }

/-- A one-node registry. -/
def demoNodes : NodeTable := [demoNode]

/-- A node whose stored role list is `["compute-extra"]`. -/
def demoNodeCE : Node :=
  { ID := 4, Member := "m0", Name := "host1", Role := "[\"compute-extra\"]", MachineID := 0,
    SystemID := "s" }

deriving instance DecidableEq for Except

theorem getConfigItem_cons (kv : String × ConfigValue) (rest : ConfigStore) (k : String) :
    getConfigItem (kv :: rest) k =
      if kv.1 == k then Except.ok kv.2 else getConfigItem rest k := by
  cases h : (kv.1 == k) with
  | true => simp [getConfigItem, List.find?, h]
  | false => simp [getConfigItem, List.find?, h]

theorem getConfigItem_updateConfig (db : ConfigStore) (k : String) (v : ConfigValue) :
    getConfigItem (updateConfig db k v) k = Except.ok v := by
  induction db with
  | nil => simp [updateConfig, getConfigItem, List.find?]
  | cons kv rest ih =>
    cases h : (kv.1 == k) with
    | true => simp [updateConfig, h, getConfigItem_cons]
    | false =>
      simp only [updateConfig, h, Bool.false_eq_true, if_false]
      rw [getConfigItem_cons]
      simp [h, ih]

theorem getConfigItem_deleteConfig (db : ConfigStore) (k : String) :
    getConfigItem (deleteConfig db k) k =
      Except.error (SbError.statusError 404 "ConfigItem not found") := by
  induction db with
  | nil => rfl
  | cons kv rest ih =>
    simp only [deleteConfig] at ih ⊢
    cases h : (kv.1 == k) with
    | true => simpa [List.filter_cons, bne, h] using ih
    | false =>
      simp only [bne] at ih
      simp [List.filter_cons, bne, h, getConfigItem_cons, ih]

/-- C1: Lock on an unlocked plan stores the proposed lock verbatim and
succeeds; with a stored lock equal on (ID, Operation, Who) it returns the
HTTP-423 Locked error carrying the stored lock; with any difference in the
triple it returns HTTP-409 Conflict carrying the stored lock; in both
already-locked cases the store is unchanged. -/
theorem updateTerraformLock_spec :
    (∀ (db : ConfigStore) (name : String) (req : Lock),
      getConfigItem db (tflockKey name) =
          Except.error (SbError.statusError 404 "ConfigItem not found") →
      UpdateTerraformLock db name (ConfigValue.lockJSON req) =
        { dbLock := emptyLock, err := none,
          store := updateConfig db (tflockKey name) (ConfigValue.lockJSON req) } ∧
      getConfigItem (UpdateTerraformLock db name (ConfigValue.lockJSON req)).store
          (tflockKey name) = Except.ok (ConfigValue.lockJSON req)) ∧
    (∀ (db : ConfigStore) (name : String) (req dbl : Lock),
      getConfigItem db (tflockKey name) = Except.ok (ConfigValue.lockJSON dbl) →
      dbl.ID = req.ID → dbl.Operation = req.Operation → dbl.Who = req.Who →
      UpdateTerraformLock db name (ConfigValue.lockJSON req) =
        { dbLock := dbl, err := some (SbError.statusError 423 "Already locked with same ID"),
          store := db }) ∧
    (∀ (db : ConfigStore) (name : String) (req dbl : Lock),
      getConfigItem db (tflockKey name) = Except.ok (ConfigValue.lockJSON dbl) →
      ¬(dbl.ID = req.ID ∧ dbl.Operation = req.Operation ∧ dbl.Who = req.Who) →
      UpdateTerraformLock db name (ConfigValue.lockJSON req) =
        { dbLock := dbl, err := some (SbError.statusError 409 "Conflict in Lock ID"),
          store := db }) := by
  refine ⟨?_, ?_, ?_⟩
  · intro db name req h
    constructor
    · simp [UpdateTerraformLock, unmarshalLock, lockReadTx, lockAfterRead, h, SbError.isNotFound]
    · simp [UpdateTerraformLock, unmarshalLock, lockReadTx, lockAfterRead, h, SbError.isNotFound,
        getConfigItem_updateConfig]
  · intro db name req dbl h h1 h2 h3
    simp [UpdateTerraformLock, unmarshalLock, lockReadTx, lockAfterRead, h, h1, h2, h3]
  · intro db name req dbl h hne
    have hb : (dbl.ID == req.ID && dbl.Operation == req.Operation && dbl.Who == req.Who)
        = false := by
      rw [Bool.eq_false_iff]
      intro hc
      simp only [Bool.and_eq_true, beq_iff_eq] at hc
      exact hne ⟨hc.1.1, hc.1.2, hc.2⟩
    simp [UpdateTerraformLock, unmarshalLock, lockReadTx, lockAfterRead, h, hb]

/-- Witness for C1: all three branches at concrete inputs. -/
theorem updateTerraformLock_spec_witness :
    (UpdateTerraformLock [] "p" (ConfigValue.lockJSON demoLock1) =
        { dbLock := emptyLock, err := none,
          store := updateConfig [] (tflockKey "p") (ConfigValue.lockJSON demoLock1) } ∧
      getConfigItem (UpdateTerraformLock [] "p" (ConfigValue.lockJSON demoLock1)).store
          (tflockKey "p") = Except.ok (ConfigValue.lockJSON demoLock1)) ∧
    UpdateTerraformLock demoDB "p" (ConfigValue.lockJSON demoLock1) =
      { dbLock := demoLock1, err := some (SbError.statusError 423 "Already locked with same ID"),
        store := demoDB } ∧
    UpdateTerraformLock demoDB "p" (ConfigValue.lockJSON demoLock2) =
      { dbLock := demoLock1, err := some (SbError.statusError 409 "Conflict in Lock ID"),
        store := demoDB } :=
  ⟨updateTerraformLock_spec.1 [] "p" demoLock1 rfl,
   updateTerraformLock_spec.2.1 demoDB "p" demoLock1 demoLock1 rfl rfl rfl rfl,
   updateTerraformLock_spec.2.2 demoDB "p" demoLock2 demoLock1 rfl (by decide)⟩

/-- C2 counterexample: with no lock stored for plan `p`, PutState returns the
propagated HTTP-404 NotFound from the lock read (with the empty lock and no
write), not an HTTP-409 Conflict as the claim states. -/
theorem updateTerraformState_noLock_ce :
    UpdateTerraformState [] "p" "lock-1" "blob" =
      { dbLock := emptyLock, err := some (SbError.statusError 404 "ConfigItem not found"),
        store := [] } ∧
    (UpdateTerraformState [] "p" "lock-1" "blob").err ≠
      some (SbError.statusError 409 "Conflict in Lock ID") := by
  exact ⟨rfl, by decide⟩

/-- C2 amended: with no lock stored for the plan, PutState returns the lock
read's NotFound error carrying the empty lock, and writes nothing. -/
theorem updateTerraformState_noLock (db : ConfigStore) (name lockID state : String)
    (h : getConfigItem db (tflockKey name) =
        Except.error (SbError.statusError 404 "ConfigItem not found")) :
    UpdateTerraformState db name lockID state =
      { dbLock := emptyLock, err := some (SbError.statusError 404 "ConfigItem not found"),
        store := db } := by
  simp [UpdateTerraformState, h]

/-- Witness for the amended C2. -/
theorem updateTerraformState_noLock_witness :
    UpdateTerraformState [] "p" "lock-1" "blob" =
      { dbLock := emptyLock, err := some (SbError.statusError 404 "ConfigItem not found"),
        store := [] } :=
  updateTerraformState_noLock [] "p" "lock-1" "blob" rfl

/-- C3: PutState under a stored lock whose ID differs from the caller's lock
ID returns HTTP-409 Conflict carrying the stored lock and leaves the store —
in particular the state blob — untouched. -/
theorem updateTerraformState_conflict (db : ConfigStore) (name lockID state : String)
    (dbl : Lock)
    (h : getConfigItem db (tflockKey name) = Except.ok (ConfigValue.lockJSON dbl))
    (hne : lockID ≠ dbl.ID) :
    UpdateTerraformState db name lockID state =
      { dbLock := dbl, err := some (SbError.statusError 409 "Conflict in Lock ID"),
        store := db } ∧
    getConfigItem (UpdateTerraformState db name lockID state).store (tfstateKey name) =
      getConfigItem db (tfstateKey name) := by
  have hb : (lockID != dbl.ID) = true := by simp [bne, hne]
  constructor
  · simp [UpdateTerraformState, h, unmarshalLock, hb]
  · simp [UpdateTerraformState, h, unmarshalLock, hb]

/-- Witness for C3. -/
theorem updateTerraformState_conflict_witness :
    (UpdateTerraformState demoDB "p" "wrong-id" "blob2" =
      { dbLock := demoLock1, err := some (SbError.statusError 409 "Conflict in Lock ID"),
        store := demoDB } ∧
    getConfigItem (UpdateTerraformState demoDB "p" "wrong-id" "blob2").store (tfstateKey "p") =
      getConfigItem demoDB (tfstateKey "p")) ∧
    getConfigItem demoDB (tfstateKey "p") = Except.ok (ConfigValue.rawString "blob-0") :=
  ⟨updateTerraformState_conflict demoDB "p" "wrong-id" "blob2" demoLock1 rfl (by decide),
   rfl⟩

/-- C4: Unlock with no stored lock succeeds for any requested lock (idempotent
no-op); with a stored lock matching on (ID, Operation, Who) it deletes the
lock (a subsequent read of the lock key is NotFound) and succeeds; otherwise
it returns HTTP-409 Conflict carrying the stored lock and the store is
unchanged. -/
theorem deleteTerraformLock_spec :
    (∀ (db : ConfigStore) (name : String) (req : Lock),
      getConfigItem db (tflockKey name) =
          Except.error (SbError.statusError 404 "ConfigItem not found") →
      DeleteTerraformLock db name (ConfigValue.lockJSON req) =
        { dbLock := emptyLock, err := none, store := db }) ∧
    (∀ (db : ConfigStore) (name : String) (req dbl : Lock),
      getConfigItem db (tflockKey name) = Except.ok (ConfigValue.lockJSON dbl) →
      dbl.ID = req.ID → dbl.Operation = req.Operation → dbl.Who = req.Who →
      DeleteTerraformLock db name (ConfigValue.lockJSON req) =
        { dbLock := dbl, err := none, store := deleteConfig db (tflockKey name) } ∧
      getConfigItem (DeleteTerraformLock db name (ConfigValue.lockJSON req)).store
          (tflockKey name) =
        Except.error (SbError.statusError 404 "ConfigItem not found")) ∧
    (∀ (db : ConfigStore) (name : String) (req dbl : Lock),
      getConfigItem db (tflockKey name) = Except.ok (ConfigValue.lockJSON dbl) →
      ¬(dbl.ID = req.ID ∧ dbl.Operation = req.Operation ∧ dbl.Who = req.Who) →
      DeleteTerraformLock db name (ConfigValue.lockJSON req) =
        { dbLock := dbl, err := some (SbError.statusError 409 "Conflict in Lock ID"),
          store := db }) := by
  refine ⟨?_, ?_, ?_⟩
  · intro db name req h
    simp [DeleteTerraformLock, unmarshalLock, h, SbError.isNotFound]
  · intro db name req dbl h h1 h2 h3
    constructor
    · simp [DeleteTerraformLock, unmarshalLock, h, h1, h2, h3]
    · simp [DeleteTerraformLock, unmarshalLock, h, h1, h2, h3, getConfigItem_deleteConfig]
  · intro db name req dbl h hne
    have hb : (dbl.ID == req.ID && dbl.Operation == req.Operation && dbl.Who == req.Who)
        = false := by
      rw [Bool.eq_false_iff]
      intro hc
      simp only [Bool.and_eq_true, beq_iff_eq] at hc
      exact hne ⟨hc.1.1, hc.1.2, hc.2⟩
    simp [DeleteTerraformLock, unmarshalLock, h, hb]

/-- Witness for C4. -/
theorem deleteTerraformLock_spec_witness :
    DeleteTerraformLock [] "p" (ConfigValue.lockJSON demoLock2) =
      { dbLock := emptyLock, err := none, store := [] } ∧
    (DeleteTerraformLock demoDB "p" (ConfigValue.lockJSON demoLock1) =
      { dbLock := demoLock1, err := none, store := deleteConfig demoDB (tflockKey "p") } ∧
     getConfigItem (DeleteTerraformLock demoDB "p" (ConfigValue.lockJSON demoLock1)).store
        (tflockKey "p") = Except.error (SbError.statusError 404 "ConfigItem not found")) ∧
    DeleteTerraformLock demoDB "p" (ConfigValue.lockJSON demoLock2) =
      { dbLock := demoLock1, err := some (SbError.statusError 409 "Conflict in Lock ID"),
        store := demoDB } :=
  ⟨deleteTerraformLock_spec.1 [] "p" demoLock2 rfl,
   deleteTerraformLock_spec.2.1 demoDB "p" demoLock1 demoLock1 rfl rfl rfl rfl,
   deleteTerraformLock_spec.2.2 demoDB "p" demoLock2 demoLock1 rfl (by decide)⟩

/-- C5: the code runs the Lock read (`GetConfig`) and the conditional write
(`UpdateConfig`) as two separate transactions, so the interleaving in which
both of two concurrent Lock calls on the same unlocked plan read before
either writes is possible, and in it BOTH calls return success — the second
silently overwrites the first lock (lost update). Run sequentially (the
behavior one atomic transaction would force), the second call is refused with
HTTP-409. -/
theorem concurrentDoubleLock_bothSucceed :
    (interleavedDoubleLock [] "p" demoLock1 demoLock2).1.err = none ∧
    (interleavedDoubleLock [] "p" demoLock1 demoLock2).2.err = none ∧
    getConfigItem (interleavedDoubleLock [] "p" demoLock1 demoLock2).2.store (tflockKey "p") =
      Except.ok (ConfigValue.lockJSON demoLock2) ∧
    (UpdateTerraformLock (UpdateTerraformLock [] "p" (ConfigValue.lockJSON demoLock1)).store
        "p" (ConfigValue.lockJSON demoLock2)).err =
      some (SbError.statusError 409 "Conflict in Lock ID") :=
  ⟨rfl, rfl, rfl, rfl⟩

theorem foldr_max_le {l : List Nat} {x : Nat} (hx : x ∈ l) : x ≤ l.foldr max 0 := by
  induction l with
  | nil => cases hx
  | cons a t ih =>
    rcases List.mem_cons.mp hx with h | h
    · subst h; exact le_max_left _ _
    · exact le_trans (ih h) (le_max_right _ _)

theorem foldr_max_mem {l : List Nat} (h : l ≠ []) : l.foldr max 0 ∈ l := by
  induction l with
  | nil => exact absurd rfl h
  | cons a t ih =>
    cases t with
    | nil => simp
    | cons b t2 =>
      have hfold : (a :: b :: t2).foldr max 0 = max a ((b :: t2).foldr max 0) := rfl
      rcases max_choice a ((b :: t2).foldr max 0) with h1 | h1
      · rw [hfold, h1]; exact List.mem_cons_self _ _
      · rw [hfold, h1]
        exact List.mem_cons_of_mem _ (ih (by simp))

theorem getLast?_of_ne_nil {α : Type} {l : List α} (h : l ≠ []) : ∃ x, l.getLast? = some x := by
  cases hl : l.getLast? with
  | some x => exact ⟨x, rfl⟩
  | none => exact absurd (List.getLast?_eq_none_iff.mp hl) h

theorem mem_of_getLast?_eq_some {α : Type} {l : List α} {x : α}
    (h : l.getLast? = some x) : x ∈ l := by
  induction l with
  | nil => simp at h
  | cons a t ih =>
    cases t with
    | nil =>
      simp only [List.getLast?_singleton, Option.some.injEq] at h
      subst h
      exact List.mem_singleton_self _
    | cons b t2 =>
      rw [List.getLast?_cons_cons] at h
      exact List.mem_cons_of_mem _ (ih h)

theorem getLast_ID_max {l : List ManifestItem}
    (hp : l.Pairwise (fun a b => a.ID < b.ID)) {x : ManifestItem}
    (hx : l.getLast? = some x) : ∀ y ∈ l, y.ID ≤ x.ID := by
  induction l with
  | nil => simp at hx
  | cons a t ih =>
    cases t with
    | nil =>
      simp only [List.getLast?_singleton, Option.some.injEq] at hx
      subst hx
      intro y hy
      simp only [List.mem_singleton] at hy
      subst hy
      exact le_refl _
    | cons b t2 =>
      have hx2 : (b :: t2).getLast? = some x := by
        rw [List.getLast?_cons_cons] at hx; exact hx
      have hmem : x ∈ b :: t2 := mem_of_getLast?_eq_some hx2
      intro y hy
      rcases List.mem_cons.mp hy with h | h
      · subst h
        exact le_of_lt ((List.pairwise_cons.mp hp).1 x hmem)
      · exact ih (List.pairwise_cons.mp hp).2 hx2 y h

/-- C6: on a manifest table with rows in rowid order (rowids strictly
increasing, as SQLite assigns them) and at least one row, get("latest")
returns a row carrying the maximum appliedDate, and among the rows sharing
that maximum the one with the highest rowid (the most recently inserted). -/
theorem getLatest_spec (tbl : ManifestTable) (hne : tbl ≠ [])
    (hsorted : tbl.Pairwise (fun a b => a.ID < b.ID)) :
    ∃ r, GetLatestManifestItem tbl = Except.ok r ∧ r ∈ tbl ∧
      (∀ q ∈ tbl, q.AppliedDate ≤ r.AppliedDate) ∧
      (∀ q ∈ tbl, q.AppliedDate = r.AppliedDate → q.ID ≤ r.ID) := by
  have hmapne : tbl.map ManifestItem.AppliedDate ≠ [] := by
    simpa using hne
  have hattain : maxAppliedDate tbl ∈ tbl.map ManifestItem.AppliedDate :=
    foldr_max_mem hmapne
  obtain ⟨r0, hr0mem, hr0⟩ := List.mem_map.mp hattain
  have hfil : r0 ∈ latestQueryRows tbl := by
    simp [latestQueryRows, List.mem_filter, hr0mem, hr0]
  have hfne : latestQueryRows tbl ≠ [] := List.ne_nil_of_mem hfil
  obtain ⟨x, hx⟩ := getLast?_of_ne_nil hfne
  have hxfil : x ∈ latestQueryRows tbl := mem_of_getLast?_eq_some hx
  have hxtbl : x ∈ tbl := (List.mem_filter.mp hxfil).1
  have hxdate : x.AppliedDate = maxAppliedDate tbl := by
    have := (List.mem_filter.mp hxfil).2
    simpa using this
  refine ⟨x, ?_, hxtbl, ?_, ?_⟩
  · simp [GetLatestManifestItem, hx]
  · intro q hq
    rw [hxdate]
    exact foldr_max_le (List.mem_map_of_mem _ hq)
  · intro q hq hqdate
    have hqfil : q ∈ latestQueryRows tbl := by
      simp [latestQueryRows, List.mem_filter, hq, hqdate, hxdate]
    have hpfil : (latestQueryRows tbl).Pairwise (fun a b => a.ID < b.ID) :=
      hsorted.sublist (List.filter_sublist tbl)
    exact getLast_ID_max hpfil hx q hqfil

/-- Witness for C6: inserting a at time 5 then b at time 9, latest is b. -/
theorem getLatest_spec_witness :
    (∃ r, GetLatestManifestItem demoManifests = Except.ok r ∧ r ∈ demoManifests ∧
      (∀ q ∈ demoManifests, q.AppliedDate ≤ r.AppliedDate) ∧
      (∀ q ∈ demoManifests, q.AppliedDate = r.AppliedDate → q.ID ≤ r.ID)) ∧
    GetLatestManifestItem demoManifests =
      Except.ok { ID := 2, ManifestID := "b", AppliedDate := 9, Data := "db" } :=
  ⟨getLatest_spec demoManifests (by decide) (by decide), by decide⟩

/-- C7: creating a manifest whose id already exists returns HTTP-409 Conflict
and leaves the table (hence the original record, its appliedDate and data)
unchanged. -/
theorem createManifest_duplicate (tbl : ManifestTable) (id data : String) (now : Nat)
    (h : ManifestItemExists tbl id = true) :
    CreateManifestItem tbl id data now =
      (some (SbError.statusError 409 "This \"manifest\" entry already exists"), tbl) := by
  simp [CreateManifestItem, h]

/-- Witness for C7: creating id "a" again over `demoManifests`. -/
theorem createManifest_duplicate_witness :
    CreateManifestItem demoManifests "a" "other-data" 77 =
      (some (SbError.statusError 409 "This \"manifest\" entry already exists"),
       demoManifests) :=
  createManifest_duplicate demoManifests "a" "other-data" 77 (by decide)

/-- C8: with a non-empty role filter, the node list query returns exactly the
nodes whose stored role-list string contains every requested role as a
substring (SQLite instr containment, not exact element match). -/
theorem getNodesFromRoles_spec (tbl : NodeTable) (roles : List String)
    (h : roles ≠ []) (n : Node) :
    n ∈ GetNodesFromRoles tbl roles ↔
      (n ∈ tbl ∧ ∀ r ∈ roles, instrGtZero n.Role r = true) := by
  unfold GetNodesFromRoles
  have hlen : roles.length > 0 := List.length_pos.mpr h
  rw [List.mem_insertionSort]
  rw [if_pos hlen]
  simp [List.mem_filter, List.all_eq_true]

/-- Witness for C8: a node whose stored role list is ["compute-extra"] is
returned when filtering by role "compute". -/
theorem getNodesFromRoles_spec_witness :
    (demoNodeCE ∈ GetNodesFromRoles [demoNodeCE] ["compute"] ↔
      (demoNodeCE ∈ [demoNodeCE] ∧
        ∀ r ∈ ["compute"], instrGtZero demoNodeCE.Role r = true)) ∧
    demoNodeCE ∈ GetNodesFromRoles [demoNodeCE] ["compute"] :=
  ⟨getNodesFromRoles_spec [demoNodeCE] ["compute"] (by decide) demoNodeCE, by decide⟩

/-- C9 counterexample: the claim's "unset" sentinel for roles is an empty
roles list, but the code tests `role == nil`; an explicitly-present empty
list is not nil, so the update succeeds and overwrites the stored role list
"[\"x\"]" with "[]" instead of keeping it (the -1 and "" sentinels do keep
MachineID and SystemID). -/
theorem updateNode_emptyRoles_ce :
    (UpdateNode demoNodes "m1" "n0" (some []) (-1) "").1 = none ∧
    (UpdateNode demoNodes "m1" "n0" (some []) (-1) "").2 =
      [{ ID := 7, Member := "m1", Name := "n0", Role := "[]", MachineID := 3,
         SystemID := "sys" }] ∧
    demoNode ∈ demoNodes ∧ demoNode.Role = "[\"x\"]" := by decide

/-- C9 amended: the roles sentinel is the absent (Go nil) list, not any empty
roles list. For an existing node each field is treated independently: the
written row keeps the stored Role when role is nil (a present roles list —
even an empty one — is written), keeps the stored MachineID when machineID is
-1 (any other value is written), and keeps the stored SystemID when systemID
is "" (any other value is written); updating an absent node name fails with
the store's NotFound and changes nothing. -/
theorem updateNode_spec :
    (∀ (tbl : NodeTable) (member name : String) (node : Node)
        (role : Option (List String)) (mid : Int) (sid : String),
      getNodeRow tbl name = Except.ok node →
      UpdateNode tbl member name role mid sid =
        (none, updateNodeRow tbl name
          { ID := 0, Member := member, Name := name,
            Role := if role = none then node.Role else roleToStr role,
            MachineID := if mid = -1 then node.MachineID else mid,
            SystemID := if sid = "" then node.SystemID else sid })) ∧
    (∀ (tbl : NodeTable) (member name : String) (role : Option (List String))
        (mid : Int) (sid : String),
      (∀ n ∈ tbl, n.Name ≠ name) →
      UpdateNode tbl member name role mid sid =
        (some (SbError.statusError 404 "Node not found"), tbl)) := by
  refine ⟨?_, ?_⟩
  · intro tbl member name node role mid sid h
    cases role with
    | none =>
      by_cases hm : mid = -1 <;> by_cases hs : sid = "" <;>
        simp [UpdateNode, h, hm, hs]
    | some rs =>
      by_cases hm : mid = -1 <;> by_cases hs : sid = "" <;>
        simp [UpdateNode, h, hm, hs]
  · intro tbl member name role mid sid habs
    have hfind : tbl.find? (fun n => n.Name == name) = none := by
      rw [List.find?_eq_none]
      intro n hn
      simp [habs n hn]
    simp [UpdateNode, getNodeRow, hfind]

/-- Witness for C9 (amended): mixed sentinel combinations — nil roles with a
supplied machine id and system id (roles kept, the rest written), a supplied
roles list with the -1 and "" sentinels (roles written, the rest kept) — and
the absent-node branch. -/
theorem updateNode_spec_witness :
    UpdateNode demoNodes "m1" "n0" none 5 "s2" =
      (none, updateNodeRow demoNodes "n0"
        { ID := 0, Member := "m1", Name := "n0", Role := "[\"x\"]", MachineID := 5,
          SystemID := "s2" }) ∧
    UpdateNode demoNodes "m1" "n0" (some ["y"]) (-1) "" =
      (none, updateNodeRow demoNodes "n0"
        { ID := 0, Member := "m1", Name := "n0", Role := roleToStr (some ["y"]),
          MachineID := 3, SystemID := "sys" }) ∧
    UpdateNode [] "m1" "nope" none (-1) "" =
      (some (SbError.statusError 404 "Node not found"), []) :=
  ⟨by
    have h := updateNode_spec.1 demoNodes "m1" "n0" demoNode none 5 "s2" rfl
    simpa using h,
   by
    have h := updateNode_spec.1 demoNodes "m1" "n0" demoNode (some ["y"]) (-1) "" rfl
    simpa using h,
   updateNode_spec.2 [] "m1" "nope" none (-1) "" (by simp)⟩

theorem find?_updateNodeRow {tbl : NodeTable} {name : String} {node : Node}
    (hfind : tbl.find? (fun n => n.Name == name) = some node)
    (new : Node) (hnew : new.Name = name) :
    ((updateNodeRow tbl name new).find? (fun n => n.Name == name)).map Node.Member =
      some new.Member := by
  induction tbl with
  | nil => simp [List.find?] at hfind
  | cons a t ih =>
    cases h : (a.Name == name) with
    | true =>
      simp [updateNodeRow, List.find?, h, hnew]
    | false =>
      have hfind2 : t.find? (fun n => n.Name == name) = some node := by
        simpa [List.find?, h] using hfind
      have := ih hfind2
      simpa [updateNodeRow, List.find?, h] using this

/-- C10: every successful node update stamps the row's owning member with the
cluster member executing the update, whatever the field arguments (sentinels
included): after the update the node's Member is the updating member, not the
one recorded at registration. -/
theorem updateNode_rewrites_member (tbl : NodeTable) (member name : String)
    (role : Option (List String)) (machineid : Int) (systemid : String) (node : Node)
    (h : getNodeRow tbl name = Except.ok node) :
    (UpdateNode tbl member name role machineid systemid).1 = none ∧
    ((UpdateNode tbl member name role machineid systemid).2.find?
        (fun n => n.Name == name)).map Node.Member = some member := by
  have hfind : tbl.find? (fun n => n.Name == name) = some node := by
    by_cases hf : ∃ m, tbl.find? (fun n => n.Name == name) = some m
    · obtain ⟨m, hm⟩ := hf
      simp [getNodeRow, hm] at h
      rw [hm, h]
    · push_neg at hf
      have : tbl.find? (fun n => n.Name == name) = none := by
        cases hq : tbl.find? (fun n => n.Name == name) with
        | none => rfl
        | some m => exact absurd hq (hf m)
      simp [getNodeRow, this] at h
  constructor
  · simp [UpdateNode, h]
  · simp only [UpdateNode, h]
    exact find?_updateNodeRow hfind _ rfl

/-- Witness for C10: updating with all sentinels still hands ownership to the
executing member "m9". -/
theorem updateNode_rewrites_member_witness :
    (UpdateNode demoNodes "m9" "n0" none (-1) "").1 = none ∧
    ((UpdateNode demoNodes "m9" "n0" none (-1) "").2.find?
        (fun n => n.Name == "n0")).map Node.Member = some "m9" :=
  updateNode_rewrites_member demoNodes "m9" "n0" none (-1) "" demoNode rfl
